import Mathlib

/-!
Verification of the core authentication pipeline of the `darkolive/modus`
repository: the CharonOTP one-time-passcode agent, the CerberusMFA router,
the WebAuthn service and the ChronosSession token engine.  Each Go function
relevant to the checked properties is embedded as an executable Lean
definition operating on an explicit store state; the Dgraph store is modelled
as lists of records, a query as a filter over the list (the Go code always
reads the first element of a query result), and a mutation as an append or a
field update keyed by record uid.  Wall-clock time is an explicit parameter.
-/

namespace Modus

/-! ## Byte-level utilities: base64url (Go encoding/base64 URLEncoding, padded) -/

/-- Value of one base64url alphabet character (A-Z, a-z, 0-9, dash, underscore). -/
def b64UrlVal (c : Char) : Option Nat :=
  if 65 ≤ c.toNat ∧ c.toNat ≤ 90 then some (c.toNat - 65)
  else if 97 ≤ c.toNat ∧ c.toNat ≤ 122 then some (c.toNat - 71)
  else if 48 ≤ c.toNat ∧ c.toNat ≤ 57 then some (c.toNat + 4)
  else if c.toNat = 45 then some 62
  else if c.toNat = 95 then some 63
  else none

/-- Decode one 4-character base64 quantum into 1, 2 or 3 bytes; `=` padding is
only legal in the last two positions, and the unused low bits must be zero,
as in Go encoding/base64. -/
def b64Quantum (a b c d : Char) : Option (List Nat) :=
  match b64UrlVal a, b64UrlVal b with
  | some va, some vb =>
    if c.toNat = 61 ∧ d.toNat = 61 then
      if vb % 16 = 0 then some [va * 4 + vb / 16] else none
    else
      match b64UrlVal c with
      | some vc =>
        if d.toNat = 61 then
          if vc % 4 = 0 then some [va * 4 + vb / 16, (vb % 16) * 16 + vc / 4] else none
        else
          match b64UrlVal d with
          | some vd => some [va * 4 + vb / 16, (vb % 16) * 16 + vc / 4, (vc % 4) * 64 + vd]
          | none => none
      | none => none
  | _, _ => none

/-- Decode a base64url character stream, 4 characters at a time; a padded
quantum must be the last one.  Mirrors Go base64.URLEncoding.DecodeString. -/
def b64Chunks : List Char → Option (List Nat)
  | [] => some []
  | a :: b :: c :: d :: rest =>
    match b64Quantum a b c d with
    | none => none
    | some bytes =>
      if bytes.length < 3 ∧ rest ≠ [] then none
      else
        match b64Chunks rest with
        | some more => some (bytes ++ more)
        | none => none
  | _ => none

/-- Go `base64.URLEncoding.DecodeString`: strict padded base64url decoding. -/
def base64UrlDecode (s : String) : Option (List Nat) := b64Chunks s.data

/-- Character for a 6-bit value in the base64url alphabet. -/
def b64UrlChar (n : Nat) : Char :=
  if n < 26 then Char.ofNat (65 + n)
  else if n < 52 then Char.ofNat (71 + n)
  else if n < 62 then Char.ofNat (n - 4)
  else if n = 62 then Char.ofNat 45
  else Char.ofNat 95

/-- Encode a byte list in padded base64url, 3 bytes to a quantum. -/
def b64EncodeChunks : List Nat → List Char
  | [] => []
  | [x] => [b64UrlChar (x / 4), b64UrlChar ((x % 4) * 16), Char.ofNat 61, Char.ofNat 61]
  | [x, y] => [b64UrlChar (x / 4), b64UrlChar ((x % 4) * 16 + y / 16),
               b64UrlChar ((y % 16) * 4), Char.ofNat 61]
  | x :: y :: z :: rest =>
      b64UrlChar (x / 4) :: b64UrlChar ((x % 4) * 16 + y / 16) ::
      b64UrlChar ((y % 16) * 4 + z / 64) :: b64UrlChar (z % 64) :: b64EncodeChunks rest

/-- Go `base64.URLEncoding.EncodeToString`. -/
def base64UrlEncode (bs : List Nat) : String := String.mk (b64EncodeChunks bs)

/-! ## Modelled hash functions

The repository uses crypto/sha256 in three places: the hex digest
`hashString` of CharonOTP, the credentialId/publicKey derivation of the
simplified WebAuthn attestation parser, and the session token hash of
ChronosSession.  No checked claim depends on the concrete digest values,
only on the digest being a deterministic function of the input (and, for
`hashString` and `hashToken`, on the ideal-hash reading in which distinct
inputs have distinct digests), so SHA-256 is modelled by executable
deterministic stand-ins. -/

/-- Modelled stand-in for `sha256.Sum256`: a deterministic 32-byte digest of
the input bytes.  Only determinism is relied upon. -/
def sha256Bytes (bs : List Nat) : List Nat :=
  (List.range 32).map (fun i => ((bs.foldl (fun a b => (a * 131 + b + 7) % 251) (i * 37 + 11)) + i) % 256)

/-- Modelled stand-in for CharonOTP `hashString` (hex-encoded SHA-256 of a
string): an injective deterministic function, the ideal-hash model. -/
def hashString (s : String) : String := "sha256hex:" ++ s

/-! ## Minimal JSON object parser

`parseClientDataJSON` in the source feeds the base64url-decoded bytes to Go
`encoding/json`.  The embedding implements the flat fragment of JSON that
every client-data document in this development lies in: an object whose
members are string keys mapped to string values, without escape sequences.
Inputs outside this fragment are rejected; on the fragment the behaviour
agrees with `json.Unmarshal` into the `ClientData` struct (missing fields
default to the empty string, a repeated key keeps its last value). -/

/-- Skip JSON whitespace bytes (space, tab, LF, CR). -/
def wsSkip : List Nat → List Nat
  | b :: rest => if b = 32 ∨ b = 9 ∨ b = 10 ∨ b = 13 then wsSkip rest else b :: rest
  | [] => []

/-- Parse a JSON string literal without escapes, returning it with the rest
of the input.  Rejects backslash and an unterminated literal. -/
def jStrAux : List Nat → List Nat → Option (List Nat × List Nat)
  | [], _ => none
  | b :: rest, acc =>
    if b = 34 then some (acc.reverse, rest)
    else if b = 92 then none
    else jStrAux rest (b :: acc)

/-- Parse a double-quoted JSON string (byte 34 delimited). -/
def parseJString (bs : List Nat) : Option (String × List Nat) :=
  match bs with
  | 34 :: rest =>
    match jStrAux rest [] with
    | some (content, rem) => some (String.mk (content.map Char.ofNat), rem)
    | none => none
  | _ => none

/-- Parse the members of a flat JSON object after the opening brace, fuelled
by the input length; returns the member list and the input after the
closing brace. -/
def parseMembersF : Nat → List Nat → Option (List (String × String) × List Nat)
  | 0, _ => none
  | Nat.succ fuel, bs =>
    match parseJString (wsSkip bs) with
    | none => none
    | some (k, rest) =>
      match wsSkip rest with
      | 58 :: rest2 =>
        match parseJString (wsSkip rest2) with
        | none => none
        | some (v, rest3) =>
          match wsSkip rest3 with
          | 44 :: rest4 =>
            match parseMembersF fuel rest4 with
            | some (ms, rem) => some ((k, v) :: ms, rem)
            | none => none
          | 125 :: rest4 => some ([(k, v)], rest4)
          | _ => none
      | _ => none

/-- Parse a whole flat JSON object document (object of string members). -/
def parseFlatJson (bs : List Nat) : Option (List (String × String)) :=
  match wsSkip bs with
  | 123 :: rest =>
    match wsSkip rest with
    | 125 :: rest2 => if wsSkip rest2 = [] then some [] else none
    | rest2 =>
      match parseMembersF (rest2.length + 1) rest2 with
      | some (ms, rem) => if wsSkip rem = [] then some ms else none
      | none => none
  | _ => none

/-- The value of field `k`, last occurrence winning, empty string when the
field is absent: the zero-value semantics of json.Unmarshal into a string
struct field. -/
def fieldOf (ms : List (String × String)) (k : String) : String :=
  (ms.filter (fun p => p.fst = k)).foldl (fun _ p => p.snd) ""

/-- Go `strings.TrimRight(s, "=")`: drop trailing equals signs. -/
def trimEq (s : String) : String :=
  String.mk ((s.data.reverse.dropWhile (fun c => c.toNat = 61)).reverse)

namespace Webauthn

/-! ## WebAuthn service (src/services/webauthn/webauthn.go)

The Dgraph-backed store is modelled as two lists: `WebAuthnChallenge`
records and `WebAuthnCredential` records.  Times (RFC3339 strings in the
store) are Unix seconds; Go `time.Now().After(t)` is `now > t`. -/

/-- Parsed client data JSON (`ClientData` struct; Go field `Type` is `ctype`
here because `Type` is not usable as a Lean field name). -/
structure ClientData where
  ctype : String
  challenge : String
  origin : String
  deriving DecidableEq

/-- A stored `WebAuthnChallenge` record. -/
structure ChallengeRec where
  challenge : String
  userId : String
  ctype : String
  expiresAt : Nat
  createdAt : Nat
  deriving DecidableEq

/-- `WebAuthnCredential` (part_005 types file). -/
structure WebAuthnCredential where
  UserID : String
  CredentialID : String
  PublicKey : String
  SignCount : Nat
  Transports : List String
  AddedAt : Nat
  deriving DecidableEq

/-- The WebAuthn-relevant slice of the graph store. -/
structure WAState where
  challenges : List ChallengeRec
  credentials : List WebAuthnCredential
  deriving DecidableEq

structure RegistrationRequest where
  UserID : String
  Challenge : String
  ClientDataJSON : String
  AttestationObject : String
  deriving DecidableEq

structure RegistrationResponse where
  Success : Bool
  CredentialID : String
  Message : String
  UserID : String
  deriving DecidableEq

structure AuthenticationRequest where
  UserID : String
  Challenge : String
  ClientDataJSON : String
  AuthenticatorData : String
  Signature : String
  UserHandle : String
  deriving DecidableEq

structure AuthenticationResponse where
  Success : Bool
  UserID : String
  Message : String
  SessionID : String
  deriving DecidableEq

/-- `parseClientDataJSON`: base64url-decode, then JSON-parse into
`ClientData` (fields default to "" when absent). -/
def parseClientDataJSON (clientDataJSON : String) : Option ClientData :=
  match base64UrlDecode clientDataJSON with
  | none => none
  | some decoded =>
    match parseFlatJson decoded with
    | none => none
    | some ms =>
      some { ctype := fieldOf ms "type", challenge := fieldOf ms "challenge",
             origin := fieldOf ms "origin" }

/-- `parseAttestationObject`: the simplified source parser; base64url-decode
and derive credentialId and publicKey from the SHA-256 of the raw bytes. -/
def parseAttestationObject (attestationObject : String) : Except String (String × String) :=
  match base64UrlDecode attestationObject with
  | none => Except.error "invalid base64"
  | some decoded =>
    let hash := sha256Bytes decoded
    Except.ok (base64UrlEncode (hash.take 16), base64UrlEncode (hash.drop 16))

/-- `extractCredentialID`: simplified extraction; a decode error is ignored
(Go leaves `decoded` nil, so the empty byte string is hashed). -/
def extractCredentialID (authenticatorData : String) : String :=
  let decoded := (base64UrlDecode authenticatorData).getD []
  base64UrlEncode ((sha256Bytes decoded).take 16)

/-- `verifyChallenge`: query challenges by (challenge, userId, type), fail
when absent, fail when the first hit is expired. -/
def verifyChallenge (s : WAState) (now : Nat)
    (challenge userID challengeType : String) : Except String Unit :=
  match s.challenges.filter (fun c =>
      c.challenge == challenge && c.userId == userID && c.ctype == challengeType) with
  | [] => Except.error "challenge not found"
  | c :: _ => if now > c.expiresAt then Except.error "challenge expired" else Except.ok ()

/-- `deleteChallenge`: the source body is a TODO stub that performs no store
operation, so the state is returned unchanged. -/
def deleteChallenge (s : WAState) (_challenge : String) : WAState := s

/-- `getCredentialByID`: the source stub never consults the store and never
fails; it fabricates a credential with the given id and SignCount 0. -/
def getCredentialByID (_s : WAState) (credentialID : String) :
    Except String WebAuthnCredential :=
  Except.ok { UserID := "", CredentialID := credentialID, PublicKey := "",
              SignCount := 0, Transports := [], AddedAt := 0 }

/-- `updateCredentialSignCount`: the source body is a TODO stub; nothing is
written and no error is returned. -/
def updateCredentialSignCount (s : WAState) (_credentialID : String)
    (_signCount : Nat) : Except String WAState :=
  Except.ok s

/-- `createAuthSession`: format a session id from the user id and the time. -/
def createAuthSession (userID : String) (now : Nat) : String :=
  "session_" ++ userID ++ "_" ++ toString now

/-- `VerifyRegistration`.  `storeOk` is the outcome of the credential-store
mutation.  Returns the response together with the post-state. -/
def VerifyRegistration (s : WAState) (now : Nat) (storeOk : Bool)
    (req : RegistrationRequest) : RegistrationResponse × WAState :=
  match verifyChallenge s now req.Challenge req.UserID "registration" with
  | Except.error _ =>
    ({ Success := false, CredentialID := "", Message := "Challenge verification failed",
       UserID := "" }, s)
  | Except.ok _ =>
    match parseClientDataJSON req.ClientDataJSON with
    | none =>
      ({ Success := false, CredentialID := "", Message := "Invalid client data",
         UserID := "" }, s)
    | some clientData =>
      if clientData.challenge ≠ req.Challenge then
        ({ Success := false, CredentialID := "", Message := "Challenge mismatch",
           UserID := "" }, s)
      else
        match parseAttestationObject req.AttestationObject with
        | Except.error _ =>
          ({ Success := false, CredentialID := "", Message := "Invalid attestation object",
             UserID := "" }, s)
        | Except.ok (credentialID, publicKey) =>
          let credential : WebAuthnCredential :=
            { UserID := req.UserID, CredentialID := credentialID, PublicKey := publicKey,
              SignCount := 0, Transports := ["internal", "usb", "nfc", "ble"],
              AddedAt := now }
          if storeOk then
            let s1 := { s with credentials := s.credentials ++ [credential] }
            let s2 := deleteChallenge s1 req.Challenge
            ({ Success := true, CredentialID := credentialID,
               Message := "WebAuthn registration successful", UserID := req.UserID }, s2)
          else
            ({ Success := false, CredentialID := "", Message := "Failed to store credential",
               UserID := "" }, s)

/-- `VerifyAuthentication`.  The source never reads `req.Signature` and never
verifies any signature; the credential lookup and the sign-count update are
the stubs above. -/
def VerifyAuthentication (s : WAState) (now : Nat)
    (req : AuthenticationRequest) : AuthenticationResponse × WAState :=
  match verifyChallenge s now req.Challenge req.UserID "authentication" with
  | Except.error _ =>
    ({ Success := false, UserID := "", Message := "Challenge verification failed",
       SessionID := "" }, s)
  | Except.ok _ =>
    match parseClientDataJSON req.ClientDataJSON with
    | none =>
      ({ Success := false, UserID := "", Message := "Invalid client data",
         SessionID := "" }, s)
    | some clientData =>
      let clientChallenge := trimEq clientData.challenge
      let requestChallenge := trimEq req.Challenge
      if clientChallenge ≠ requestChallenge then
        ({ Success := false, UserID := "", Message := "Challenge mismatch",
           SessionID := "" }, s)
      else
        let credentialID := extractCredentialID req.AuthenticatorData
        match getCredentialByID s credentialID with
        | Except.error _ =>
          ({ Success := false, UserID := "", Message := "Failed to get credential",
             SessionID := "" }, s)
        | Except.ok credential =>
          match updateCredentialSignCount s credentialID (credential.SignCount + 1) with
          | Except.error _ =>
            ({ Success := false, UserID := "", Message := "Failed to update sign count",
               SessionID := "" }, s)
          | Except.ok s1 =>
            let sessionID := createAuthSession req.UserID now
            let s2 := deleteChallenge s1 req.Challenge
            ({ Success := true, UserID := req.UserID,
               Message := "WebAuthn authentication successful", SessionID := sessionID }, s2)

end Webauthn

namespace ChronosSession

/-! ## ChronosSession (src/agents/sessions/ChronosSession/ChronosSession.go)

The HMAC-SHA256 JWT envelope is modelled ideally: a token is its claims
paired with the key that signed it, and signature verification is equality
of that key with the configured secret.  `hashToken` (SHA-256, base64) is
modelled as the identity on tokens, the ideal injective hash.  golang-jwt v5
validates the registered `exp` claim during parsing: a token parses only
while `now` is before `exp`. -/

/-- JWT claims: the standard set written by `IssueSession` plus the
non-standard claims as an association list. -/
structure Claims where
  sub : String
  iat : Int
  exp : Int
  jti : String
  extra : List (String × String)
  deriving DecidableEq

/-- A signed token: claims plus the HMAC key that signed them (ideal model
of the HS256 envelope). -/
structure Token where
  claims : Claims
  key : String
  deriving DecidableEq

/-- Hardcoded configuration from `Initialize`. -/
def secretKey : String := "your-secure-secret-key-for-testing-jwt-tokens"

/-- Session TTL in seconds (hardcoded 24 h). -/
def ttl : Int := 86400

/-- Refresh window in seconds (hardcoded 1 h). -/
def refreshWindow : Int := 3600

/-- `jwt.Parse` with the HS256 key check and default registered-claims
validation: fails on a wrong key and on an expired `exp`. -/
def jwtParse (secret : String) (now : Int) (t : Token) : Except String Claims :=
  if t.key ≠ secret then Except.error "signature is invalid"
  else if ¬ now < t.claims.exp then Except.error "token is expired"
  else Except.ok t.claims

/-- `hashToken`: SHA-256 + base64 of the serialized token, modelled as the
identity (ideal injective hash); the store compares hashes for equality
only. -/
def hashToken (t : Token) : Token := t

/-- An `AuthSession` record in the store. -/
structure SessionRec where
  uid : Nat
  userID : String
  tokenHash : Token
  issuedAt : Int
  expiresAt : Int
  valid : Bool
  lastUsed : Option Int
  deviceInfo : String
  ipAddress : String
  userAgent : String
  deriving DecidableEq

/-- The session slice of the graph store; `nextUid` models store uid
minting. -/
structure CSState where
  sessions : List SessionRec
  nextUid : Nat
  deriving DecidableEq

structure SessionRequest where
  UserID : String
  AdditionalClaims : List (String × String)
  DeviceInfo : String
  IPAddress : String
  UserAgent : String
  deriving DecidableEq

structure SessionResponse where
  Token : Token
  ExpiresAt : Int
  IssuedAt : Int
  UserID : String
  Message : String
  deriving DecidableEq

structure ValidationResponse where
  Valid : Bool
  UserID : String
  ExpiresAt : Int
  Message : String
  deriving DecidableEq

structure RevocationResponse where
  Revoked : Bool
  Message : String
  Timestamp : Int
  deriving DecidableEq

/-- The JWT standard claim keys that `IssueSession` refuses to override and
`RefreshSession` refuses to copy. -/
def standardKey (k : String) : Bool :=
  k == "sub" || k == "iat" || k == "exp" || k == "jti"

/-- `IssueSession`: mint and sign the claims, persist the `AuthSession`
record with `valid=true`, return the token. -/
def IssueSession (s : CSState) (now : Int) (req : SessionRequest) :
    Except String (SessionResponse × CSState) :=
  if req.UserID = "" then Except.error "user ID is required"
  else
    let expiresAt := now + ttl
    let claims : Claims :=
      { sub := req.UserID, iat := now, exp := expiresAt,
        jti := toString now ++ "-" ++ req.UserID,
        extra := req.AdditionalClaims.filter (fun p => ¬ standardKey p.fst) }
    let token : Token := { claims := claims, key := secretKey }
    let rec0 : SessionRec :=
      { uid := s.nextUid, userID := req.UserID, tokenHash := hashToken token,
        issuedAt := now, expiresAt := expiresAt, valid := true, lastUsed := none,
        deviceInfo := req.DeviceInfo, ipAddress := req.IPAddress,
        userAgent := req.UserAgent }
    Except.ok
      ({ Token := token, ExpiresAt := expiresAt, IssuedAt := now,
         UserID := req.UserID, Message := "Session created successfully" },
       { sessions := s.sessions ++ [rec0], nextUid := s.nextUid + 1 })

/-- Sessions matching a token hash, in store order; the Go helpers read the
first element of this query result. -/
def sessionsByHash (s : CSState) (t : Token) : List SessionRec :=
  s.sessions.filter (fun r => r.tokenHash == hashToken t)

/-- `isTokenValid`: the session must exist, be marked valid, and not be past
its stored expiry. -/
def isTokenValid (s : CSState) (now : Int) (t : Token) : Bool :=
  match sessionsByHash s t with
  | [] => false
  | r :: _ =>
    if ¬ r.valid then false
    else if now > r.expiresAt then false
    else true

/-- Update the sessions with the given uid. -/
def updateByUid (s : CSState) (uid : Nat) (f : SessionRec → SessionRec) : CSState :=
  { s with sessions := s.sessions.map (fun r => if r.uid == uid then f r else r) }

/-- `updateLastUsed`: set `lastUsed` on the first session matching the
token hash; a missing session is reported but ignored by the caller. -/
def updateLastUsed (s : CSState) (now : Int) (t : Token) : CSState :=
  match sessionsByHash s t with
  | [] => s
  | r :: _ => updateByUid s r.uid (fun q => { q with lastUsed := some now })

/-- `ValidateSession`: parse and signature-check the token, then consult the
store; on success `lastUsed` is updated. -/
def ValidateSession (s : CSState) (now : Int) (t : Token) :
    ValidationResponse × CSState :=
  match jwtParse secretKey now t with
  | Except.error e =>
    ({ Valid := false, UserID := "", ExpiresAt := 0,
       Message := "invalid token: " ++ e }, s)
  | Except.ok claims =>
    if ¬ isTokenValid s now t then
      ({ Valid := false, UserID := "", ExpiresAt := 0,
         Message := "token has been revoked" }, s)
    else
      ({ Valid := true, UserID := claims.sub, ExpiresAt := claims.exp,
         Message := "Token is valid" }, updateLastUsed s now t)

/-- `invalidateToken`: set `valid=false` on the session with the uid of the
first record matching the token hash; error when no session matches. -/
def invalidateToken (s : CSState) (t : Token) : Except String CSState :=
  match sessionsByHash s t with
  | [] => Except.error "session not found"
  | r :: _ => Except.ok (updateByUid s r.uid (fun q => { q with valid := false }))

/-- `RevokeSession`. -/
def RevokeSession (s : CSState) (now : Int) (t : Token) (_reason : String) :
    Except String (RevocationResponse × CSState) :=
  match invalidateToken s t with
  | Except.error e => Except.error e
  | Except.ok s1 =>
    Except.ok ({ Revoked := true, Message := "Session revoked successfully",
                 Timestamp := now }, s1)

/-- `RefreshSession`: validate, gate on the eligibility window, issue a new
token carrying the non-standard claims, then revoke the old token.  Note the
source gate rejects only when `refreshWindow < remaining < ttl/2`. -/
def RefreshSession (s : CSState) (now : Int) (t : Token) :
    Except String (SessionResponse × CSState) :=
  let validation := (ValidateSession s now t).fst
  let s1 := (ValidateSession s now t).snd
  if ¬ validation.Valid then Except.error validation.Message
  else
    let timeUntilExpiry : Int := validation.ExpiresAt - now
    if timeUntilExpiry > refreshWindow ∧ timeUntilExpiry < ttl / 2 then
      Except.error "token not eligible for refresh yet"
    else
      let additionalClaims := t.claims.extra.filter (fun p => ¬ standardKey p.fst)
      let sessionReq : SessionRequest :=
        { UserID := validation.UserID, AdditionalClaims := additionalClaims,
          DeviceInfo := "", IPAddress := "", UserAgent := "" }
      match IssueSession s1 now sessionReq with
      | Except.error e => Except.error e
      | Except.ok (newSession, s2) =>
        let s3 := match RevokeSession s2 now t "refreshed" with
                  | Except.ok (_, s3) => s3
                  | Except.error _ => s2
        Except.ok (newSession, s3)

end ChronosSession

/-- Outcome of a store mutation as observed by the Go callers: an error, a
success whose uid map misses the expected blank node, or a success that
returns the minted uid. -/
inductive StoreOutcome where
  | err (e : String)
  | okNoUid
  | okUid
  deriving DecidableEq

namespace CharonOTP

/-! ## CharonOTP (src/agents/auth/CharonOTP/CharonOTP.go)

The primary variant of the agent (the one imported by main.go).  The store
is a list of `ChannelOTP` records and a list of user records; the random
draw, the e-mail dispatch and the mutation outcome are explicit inputs
(`SendEnv`), since they are the effects of the function.  The Go functions
return a response-and-error pair; the embedding keeps the response and the
post-state, the response already carrying the failure information the claims
are about. -/

/-- A stored `ChannelOTP` record.  The primary variant's store mutation sets
exactly these predicates (`createdAt`, `userId` and `purpose` are not
written by it and are dropped here). -/
structure OTPRec where
  uid : Nat
  channelHash : String
  channelType : String
  otpHash : String
  verified : Bool
  used : Bool
  expiresAt : Nat
  deriving DecidableEq

/-- A user record as seen by `checkUserExists` (keyed by emailDID or
phoneDID). -/
structure UserRec where
  uid : Nat
  emailDID : String
  phoneDID : String
  status : String
  deriving DecidableEq

/-- The OTP slice of the graph store. -/
structure OTPState where
  otps : List OTPRec
  users : List UserRec
  nextUid : Nat
  deriving DecidableEq

/-- Effects drawn during `SendOTP`: the CSPRNG-formatted code, the e-mail
dispatch result, and the OTP store mutation outcome. -/
structure SendEnv where
  genResult : Except String String
  emailResult : Except String Unit
  storeResult : StoreOutcome

structure OTPRequest where
  Channel : String
  Recipient : String
  UserID : String
  deriving DecidableEq

structure OTPResponse where
  OTPID : String
  Sent : Bool
  Verified : Bool
  Channel : String
  ExpiresAt : Nat
  Message : String
  deriving DecidableEq

structure VerifyOTPRequest where
  OTPCode : String
  Recipient : String
  deriving DecidableEq

structure VerifyOTPResponse where
  Verified : Bool
  Message : String
  UserID : String
  Action : String
  ChannelDID : String
  deriving DecidableEq

/-- Channel dispatch of `SendOTP`: e-mail uses the mail service outcome,
the other known channels always fail with a placeholder error, an unknown
channel aborts `SendOTP` (the Except error).  A `some e` value is a logged
delivery failure that does not abort the send. -/
def dispatchOTP (env : SendEnv) (channel : String) : Except String (Option String) :=
  if channel = "email" then
    Except.ok (match env.emailResult with
               | Except.ok _ => none
               | Except.error e => some e)
  else if channel = "sms" ∨ channel = "whatsapp" ∨ channel = "telegram" then
    Except.ok (some (channel ++ " channel not yet implemented"))
  else Except.error ("unsupported channel: " ++ channel)

/-- The record persisted by `storeOTPInDgraph`: hashes of the recipient and
the code, `verified=used=false`. -/
def newOTPRec (s : OTPState) (req : OTPRequest) (otpCode : String)
    (expiresAt : Nat) : OTPRec :=
  { uid := s.nextUid, channelHash := hashString req.Recipient,
    channelType := req.Channel, otpHash := hashString otpCode,
    verified := false, used := false, expiresAt := expiresAt }

/-- `SendOTP` (primary variant): validate, generate, dispatch, then store.
A storage error is logged and swallowed: the response is still returned
without error, with a fallback otp id. -/
def SendOTP (s : OTPState) (now : Nat) (env : SendEnv) (req : OTPRequest) :
    Except String OTPResponse × OTPState :=
  if req.Channel = "" then (Except.error "channel is required", s)
  else if req.Recipient = "" then (Except.error "recipient is required", s)
  else
    match env.genResult with
    | Except.error e => (Except.error ("failed to generate OTP: " ++ e), s)
    | Except.ok otpCode =>
      let expiresAt := now + 5 * 60
      match dispatchOTP env req.Channel with
      | Except.error e => (Except.error e, s)
      | Except.ok sendErr =>
        let stored : String × OTPState :=
          match env.storeResult with
          | StoreOutcome.err _ => ("otp_" ++ toString now, s)
          | StoreOutcome.okNoUid =>
            ("otp_" ++ toString now,
             { s with otps := s.otps ++ [newOTPRec s req otpCode expiresAt],
                      nextUid := s.nextUid + 1 })
          | StoreOutcome.okUid =>
            (toString s.nextUid,
             { s with otps := s.otps ++ [newOTPRec s req otpCode expiresAt],
                      nextUid := s.nextUid + 1 })
        (Except.ok
          { OTPID := stored.fst, Sent := sendErr.isNone, Verified := false,
            Channel := req.Channel, ExpiresAt := expiresAt,
            Message := match sendErr with
                       | some e => "OTP generated but failed to send: " ++ e
                       | none => "OTP sent successfully via " ++ req.Channel },
         stored.snd)

/-- The filter of the `otp_verification` query: hashes match and the record
is neither verified nor used. -/
def freshMatch (channelHash otpHash : String) (r : OTPRec) : Bool :=
  r.channelHash == channelHash && r.otpHash == otpHash &&
  r.verified == false && r.used == false

/-- `markOTPAsVerifiedAndUsed`: one mutation setting both flags true on the
record with the given uid. -/
def markOTPAsVerifiedAndUsed (s : OTPState) (uid : Nat) : OTPState :=
  { s with otps := s.otps.map (fun r =>
      if r.uid == uid then { r with verified := true, used := true } else r) }

/-- `generateChannelDID`: hash of "channel:recipient". -/
def generateChannelDID (channel recipient : String) : String :=
  hashString (channel ++ ":" ++ recipient)

/-- `checkUserExists`: look a user up by emailDID or phoneDID; other channel
types are an error. -/
def checkUserExists (s : OTPState) (channelDID channelType : String) :
    Except String (Bool × String) :=
  if channelType = "email" then
    match s.users.filter (fun u => u.emailDID == channelDID) with
    | [] => Except.ok (false, "")
    | u :: _ => Except.ok (true, toString u.uid)
  else if channelType = "phone" then
    match s.users.filter (fun u => u.phoneDID == channelDID) with
    | [] => Except.ok (false, "")
    | u :: _ => Except.ok (true, toString u.uid)
  else Except.error ("unsupported channel type: " ++ channelType)

/-- `PostOTPVerification`: derive the channel DID and route to signin or
register. -/
def PostOTPVerification (s : OTPState) (channel recipient : String) :
    Except String (String × String × String) :=
  let channelDID := generateChannelDID channel recipient
  match checkUserExists s channelDID channel with
  | Except.error e => Except.error e
  | Except.ok (true, userID) => Except.ok ("signin", userID, channelDID)
  | Except.ok (false, _) => Except.ok ("register", "", channelDID)

/-- `VerifyOTP` (primary variant).  `markOk` is the outcome of the
flag-setting mutation. -/
def VerifyOTP (s : OTPState) (now : Nat) (markOk : Bool)
    (req : VerifyOTPRequest) : VerifyOTPResponse × OTPState :=
  let channelHash := hashString req.Recipient
  let otpHash := hashString req.OTPCode
  match s.otps.filter (freshMatch channelHash otpHash) with
  | [] =>
    ({ Verified := false, Message := "Invalid OTP code or OTP has already been used",
       UserID := "", Action := "", ChannelDID := "" }, s)
  | r :: _ =>
    if now > r.expiresAt then
      ({ Verified := false, Message := "OTP has expired",
         UserID := "", Action := "", ChannelDID := "" }, s)
    else if ¬ markOk then
      ({ Verified := false, Message := "Failed to update OTP status",
         UserID := "", Action := "", ChannelDID := "" }, s)
    else
      let s1 := markOTPAsVerifiedAndUsed s r.uid
      match PostOTPVerification s1 r.channelType req.Recipient with
      | Except.error _ =>
        ({ Verified := false, Message := "Failed to determine next action",
           UserID := "", Action := "", ChannelDID := "" }, s1)
      | Except.ok (action, userID, channelDID) =>
        ({ Verified := true, Message := "OTP verified successfully",
           UserID := userID, Action := action, ChannelDID := channelDID }, s1)

end CharonOTP

namespace CerberusMFA

/-! ## CerberusMFA (src/agents/auth/CerberusMFA/CerberusMFA.go)

The router: user-channel lookup, pending-user creation, role attachment. -/

/-- A `UserChannels` record. -/
structure UserChannelRec where
  uid : Nat
  userId : String
  channelType : String
  channelHash : String
  verified : Bool
  primary : Bool
  createdAt : Nat
  lastUsedAt : Nat
  deriving DecidableEq

/-- A `User` record as written by `CreateNewUser`. -/
structure CUserRec where
  uid : Nat
  status : String
  did : String
  createdAt : Nat
  updatedAt : Nat
  roles : List Nat
  deriving DecidableEq

/-- A read-only `Role` catalog record. -/
structure RoleRec where
  uid : Nat
  name : String
  deriving DecidableEq

/-- The router slice of the graph store. -/
structure MFAState where
  userChannels : List UserChannelRec
  users : List CUserRec
  roles : List RoleRec
  nextUid : Nat
  deriving DecidableEq

/-- Mutation outcomes of the router: user creation, user-channel creation
and the lastUsedAt update. -/
structure MFAEnv where
  userMutation : StoreOutcome
  channelMutation : Except String Unit
  lastUsedMutation : Except String Unit

structure CerberusMFARequest where
  ChannelDID : String
  ChannelType : String
  deriving DecidableEq

structure CerberusMFAResponse where
  UserExists : Bool
  Action : String
  UserID : String
  AvailableMethods : List String
  NextStep : String
  Message : String
  deriving DecidableEq

/-- The `(channelHash, channelType)` query filter of the router lookup. -/
def chMatch (channelDID channelType : String) (c : UserChannelRec) : Bool :=
  c.channelHash == channelDID && c.channelType == channelType

/-- `checkUserByChannel`: a verified first hit yields the user; an
unverified hit is treated as a miss. -/
def checkUserByChannel (s : MFAState) (channelDID channelType : String) :
    Bool × String :=
  match s.userChannels.filter (chMatch channelDID channelType) with
  | [] => (false, "")
  | c :: _ => if c.verified then (true, c.userId) else (false, "")

/-- `updateChannelLastUsed`: set `lastUsedAt` on the first matching channel;
a mutation failure leaves the store unchanged (the caller only logs it). -/
def updateChannelLastUsed (s : MFAState) (now : Nat) (env : MFAEnv)
    (channelDID channelType : String) : MFAState :=
  match s.userChannels.filter (chMatch channelDID channelType) with
  | [] => s
  | c :: _ =>
    match env.lastUsedMutation with
    | Except.error _ => s
    | Except.ok _ =>
      { s with userChannels := s.userChannels.map (fun q =>
          if q.uid == c.uid then { q with lastUsedAt := now } else q) }

/-- Go `channelDID[len(channelDID)-8:]`: the last eight characters.  The
source indexes bytes and panics on a shorter string; the model is only
applied under a length hypothesis. -/
def lastEight (s : String) : String := s.drop (s.length - 8)

/-- The uid of the role named "registered", when the catalog resolves it. -/
def registeredRoleUid (s : MFAState) : Option Nat :=
  match s.roles.filter (fun r => r.name == "registered") with
  | [] => none
  | r :: _ => some r.uid

/-- `CreateNewUser`: mint the user id, resolve the role, persist the PENDING
user (with the role edge when resolved), then persist the verified primary
user channel.  A channel-creation failure is only a warning.  A user
mutation that succeeds without returning the uid still persists the node but
makes the function fail. -/
def CreateNewUser (s : MFAState) (now : Nat) (env : MFAEnv)
    (channelDID channelType : String) : Except String String × MFAState :=
  let userID := "user_" ++ toString now ++ "_" ++ lastEight channelDID
  let roleUID := registeredRoleUid s
  let user : CUserRec :=
    { uid := s.nextUid, status := "PENDING", did := userID,
      createdAt := now, updatedAt := now, roles := roleUID.toList }
  match env.userMutation with
  | StoreOutcome.err e => (Except.error ("failed to create user: " ++ e), s)
  | StoreOutcome.okNoUid =>
    (Except.error "failed to get created user UID",
     { s with users := s.users ++ [user], nextUid := s.nextUid + 1 })
  | StoreOutcome.okUid =>
    let s1 := { s with users := s.users ++ [user], nextUid := s.nextUid + 1 }
    match env.channelMutation with
    | Except.error _ => (Except.ok userID, s1)
    | Except.ok _ =>
      let ch : UserChannelRec :=
        { uid := s1.nextUid, userId := userID, channelType := channelType,
          channelHash := channelDID, verified := true, primary := true,
          createdAt := now, lastUsedAt := now }
      (Except.ok userID,
       { s1 with userChannels := s1.userChannels ++ [ch], nextUid := s1.nextUid + 1 })

/-- `CerberusMFA`: the routing decision.  A hit routes to signin; a miss
creates the pending user and reports `userExists=true, action=register`;
a creation failure is reported inside the response with `action=error`. -/
def CerberusMFA (s : MFAState) (now : Nat) (env : MFAEnv)
    (req : CerberusMFARequest) : CerberusMFAResponse × MFAState :=
  match checkUserByChannel s req.ChannelDID req.ChannelType with
  | (true, userID) =>
    let s1 := updateChannelLastUsed s now env req.ChannelDID req.ChannelType
    ({ UserExists := true, Action := "signin", UserID := userID,
       AvailableMethods := ["webauthn", "passwordless"],
       NextStep := "Choose authentication method: WebAuthn (biometric/hardware) or Passwordless DID",
       Message := "Welcome back! Please complete authentication." }, s1)
  | (false, _) =>
    match CreateNewUser s now env req.ChannelDID req.ChannelType with
    | (Except.error _, s1) =>
      ({ UserExists := false, Action := "error", UserID := "",
         AvailableMethods := [],
         NextStep := "Registration failed",
         Message := "Failed to create user account. Please try again." }, s1)
    | (Except.ok newUserID, s1) =>
      ({ UserExists := true, Action := "register", UserID := newUserID,
         AvailableMethods := ["webauthn", "passwordless"],
         NextStep := "Complete authentication setup: Choose WebAuthn (biometric/hardware) or Passwordless",
         Message := "Welcome! Your account has been created. Please set up secure authentication." }, s1)

end CerberusMFA

/-! ## Concrete inputs used by counterexamples and witnesses -/

/-- Modelled from the spec: the configured RP origin (`webauthn.origin` of
§6).  The source configures only `rpID` and `rpName`; no origin setting
exists anywhere in it. -/
def specConfiguredOrigin : String := "https://do-study.hypermode.host"

/-- Base64url of the client data document with type webauthn.create,
challenge abc and origin https://evil.example. -/
def cxClientDataCreate : String :=
  "eyJ0eXBlIjoid2ViYXV0aG4uY3JlYXRlIiwiY2hhbGxlbmdlIjoiYWJjIiwib3JpZ2luIjoiaHR0cHM6Ly9ldmlsLmV4YW1wbGUifQ=="

/-- Base64url of the client data document with type webauthn.get,
challenge c1 and origin https://example.test. -/
def cxClientDataGet : String :=
  "eyJ0eXBlIjoid2ViYXV0aG4uZ2V0IiwiY2hhbGxlbmdlIjoiYzEiLCJvcmlnaW4iOiJodHRwczovL2V4YW1wbGUudGVzdCJ9"

/-- Store with one unexpired registration challenge "abc" for user u1. -/
def cxRegState : Webauthn.WAState :=
  { challenges := [{ challenge := "abc", userId := "u1", ctype := "registration",
                     expiresAt := 1000, createdAt := 0 }],
    credentials := [] }

/-- Registration request whose decoded client data carries a foreign origin. -/
def cxRegReq : Webauthn.RegistrationRequest :=
  { UserID := "u1", Challenge := "abc", ClientDataJSON := cxClientDataCreate,
    AttestationObject := "AAAA" }

/-- Store with one unexpired authentication challenge "c1" for user u1. -/
def cxAuthState : Webauthn.WAState :=
  { challenges := [{ challenge := "c1", userId := "u1", ctype := "authentication",
                     expiresAt := 1000, createdAt := 0 }],
    credentials := [] }

/-- Authentication request against challenge c1. -/
def cxAuthReq : Webauthn.AuthenticationRequest :=
  { UserID := "u1", Challenge := "c1", ClientDataJSON := cxClientDataGet,
    AuthenticatorData := "AAAA", Signature := "sig", UserHandle := "" }

/-- Authentication store for C4: the credential matched by the assertion has
stored signCount 5. -/
def cxSignState : Webauthn.WAState :=
  { challenges := [{ challenge := "c1", userId := "u1", ctype := "authentication",
                     expiresAt := 1000, createdAt := 0 }],
    credentials := [{ UserID := "u1",
                      CredentialID := Webauthn.extractCredentialID "AAAA",
                      PublicKey := "pk", SignCount := 5, Transports := [],
                      AddedAt := 0 }] }

/-- A freshly issued token for user u1 expiring at 86000. -/
def cxToken : ChronosSession.Token :=
  { claims := { sub := "u1", iat := 0, exp := 86000, jti := "0-u1", extra := [] },
    key := ChronosSession.secretKey }

/-- Session store holding the valid session record of `cxToken`. -/
def cxSessState : ChronosSession.CSState :=
  { sessions := [{ uid := 0, userID := "u1",
                   tokenHash := ChronosSession.hashToken cxToken,
                   issuedAt := 0, expiresAt := 86000, valid := true, lastUsed := none,
                   deviceInfo := "", ipAddress := "", userAgent := "" }],
    nextUid := 1 }

/-- The store after revoking the concrete session of `cxSessState`. -/
def cxRevokedState : ChronosSession.CSState :=
  { sessions := [{ uid := 0, userID := "u1",
                   tokenHash := ChronosSession.hashToken cxToken,
                   issuedAt := 0, expiresAt := 86000, valid := false, lastUsed := none,
                   deviceInfo := "", ipAddress := "", userAgent := "" }],
    nextUid := 1 }

/-- One fresh OTP record for recipient a@b.test with code 123456. -/
def cxOtpRec : CharonOTP.OTPRec :=
  { uid := 1, channelHash := hashString "a@b.test", channelType := "email",
    otpHash := hashString "123456", verified := false, used := false, expiresAt := 300 }

/-- OTP store holding exactly `cxOtpRec` and no users. -/
def cxOtpState : CharonOTP.OTPState :=
  { otps := [cxOtpRec], users := [], nextUid := 2 }

/-- The verification request matching `cxOtpRec`. -/
def cxOtpReq : CharonOTP.VerifyOTPRequest :=
  { OTPCode := "123456", Recipient := "a@b.test" }

/-- The `used ⇒ verified` invariant on a record list. -/
def OTPInvL (l : List CharonOTP.OTPRec) : Prop :=
  ∀ r ∈ l, r.used = true → r.verified = true

/-- The `used ⇒ verified` invariant over the OTP store. -/
def OTPInv (s : CharonOTP.OTPState) : Prop := OTPInvL s.otps

/-- Send environment in which every effect succeeds. -/
def cxSendEnvOk : CharonOTP.SendEnv :=
  { genResult := Except.ok "123456", emailResult := Except.ok (),
    storeResult := StoreOutcome.okUid }

/-- A well-formed e-mail OTP request. -/
def cxSendReq : CharonOTP.OTPRequest :=
  { Channel := "email", Recipient := "a@b.test", UserID := "" }

/-- Send environment whose store mutation fails. -/
def cxSendEnvStoreFail : CharonOTP.SendEnv :=
  { genResult := Except.ok "123456", emailResult := Except.ok (),
    storeResult := StoreOutcome.err "store unavailable" }

/-- Router environment in which both mutations succeed. -/
def cxMFAEnv : CerberusMFA.MFAEnv :=
  { userMutation := StoreOutcome.okUid, channelMutation := Except.ok (),
    lastUsedMutation := Except.ok () }

/-- Router store with an empty channel table and a registered role. -/
def cxMFAState : CerberusMFA.MFAState :=
  { userChannels := [], users := [], roles := [{ uid := 7, name := "registered" }],
    nextUid := 0 }

/-- Routing request with a 16-character channel DID. -/
def cxMFAReq : CerberusMFA.CerberusMFARequest :=
  { ChannelDID := "abcdefgh12345678", ChannelType := "email" }

/-! ## C1: origin (and client-data type) checking in VerifyRegistration -/

/-- C1, counterexample: a registration response whose decoded clientDataJSON
origin https://evil.example differs from the configured RP origin is
nevertheless verified with success=true, and a credential record is
written.  The source checks neither the origin nor the client-data type. -/
theorem C1_counterexample :
    ((Webauthn.parseClientDataJSON cxRegReq.ClientDataJSON).map Webauthn.ClientData.origin
      = some "https://evil.example")
    ∧ specConfiguredOrigin ≠ "https://evil.example"
    ∧ (Webauthn.VerifyRegistration cxRegState 100 true cxRegReq).fst.Success = true
    ∧ (Webauthn.VerifyRegistration cxRegState 100 true cxRegReq).snd.credentials.length = 1 :=
  ⟨rfl, by decide, rfl, rfl⟩

/-- C1, amended: VerifyRegistration never inspects the decoded origin or
type.  Whenever the challenge record is present and unexpired, the client
data parses, its challenge equals the request challenge and the attestation
object decodes, the call returns success=true and appends the credential —
for every value of the decoded origin and type. -/
theorem C1_registration_ignores_origin (s : Webauthn.WAState) (now : Nat)
    (req : Webauthn.RegistrationRequest) (cd : Webauthn.ClientData)
    (credId pk : String)
    (hch : Webauthn.verifyChallenge s now req.Challenge req.UserID "registration"
            = Except.ok ())
    (hcd : Webauthn.parseClientDataJSON req.ClientDataJSON = some cd)
    (hmatch : cd.challenge = req.Challenge)
    (hatt : Webauthn.parseAttestationObject req.AttestationObject
            = Except.ok (credId, pk)) :
    (Webauthn.VerifyRegistration s now true req).fst.Success = true
    ∧ (Webauthn.VerifyRegistration s now true req).snd.credentials =
      s.credentials ++ [{ UserID := req.UserID, CredentialID := credId, PublicKey := pk,
                          SignCount := 0, Transports := ["internal", "usb", "nfc", "ble"],
                          AddedAt := now }] := by
  unfold Webauthn.VerifyRegistration
  rw [hch, hcd, hatt]
  simp [hmatch, Webauthn.deleteChallenge]

/-- C1, witness for the amended theorem at the concrete wrong-origin input. -/
theorem C1_registration_ignores_origin_witness :
    (Webauthn.VerifyRegistration cxRegState 100 true cxRegReq).fst.Success = true
    ∧ (Webauthn.VerifyRegistration cxRegState 100 true cxRegReq).snd.credentials =
      cxRegState.credentials ++
        [{ UserID := cxRegReq.UserID, CredentialID := "MBj748uzm4NrUzsjBu7Wvg==",
           PublicKey := "po52XkYuFvnhybGZgWlROQ==", SignCount := 0,
           Transports := ["internal", "usb", "nfc", "ble"], AddedAt := 100 }] :=
  C1_registration_ignores_origin cxRegState 100 cxRegReq
    { ctype := "webauthn.create", challenge := "abc", origin := "https://evil.example" }
    "MBj748uzm4NrUzsjBu7Wvg==" "po52XkYuFvnhybGZgWlROQ=="
    (by rfl) (by rfl) (by rfl) (by rfl)

/-! ## C2: challenge consumption -/

/-- C2: the claim is right and the code is wrong.  `deleteChallenge` is a
TODO stub, so after a successful VerifyAuthentication the consumed challenge
record is still present, and a second verification presenting the same
challenge succeeds instead of failing. -/
theorem C2_challenge_not_deleted :
    (Webauthn.VerifyAuthentication cxAuthState 10 cxAuthReq).fst.Success = true
    ∧ (Webauthn.VerifyAuthentication cxAuthState 10 cxAuthReq).snd.challenges
        = cxAuthState.challenges
    ∧ (Webauthn.VerifyAuthentication
        (Webauthn.VerifyAuthentication cxAuthState 10 cxAuthReq).snd 10 cxAuthReq).fst.Success
        = true :=
  ⟨rfl, rfl, rfl⟩

/-! ## C3: the Signature input is never used -/

/-- C3: the Success value of VerifyAuthentication is independent of the
Signature field, and a request with a stored, unexpired, matching challenge
whose client data parses and matches succeeds without any signature being
verified against a stored public key (the credential lookup is a stub that
ignores the store). -/
theorem C3_signature_never_verified (s : Webauthn.WAState) (now : Nat)
    (req : Webauthn.AuthenticationRequest) (sig1 sig2 : String) :
    ((Webauthn.VerifyAuthentication s now { req with Signature := sig1 }).fst.Success
      = (Webauthn.VerifyAuthentication s now { req with Signature := sig2 }).fst.Success)
    ∧ (∀ cd : Webauthn.ClientData,
        Webauthn.verifyChallenge s now req.Challenge req.UserID "authentication"
          = Except.ok () →
        Webauthn.parseClientDataJSON req.ClientDataJSON = some cd →
        trimEq cd.challenge = trimEq req.Challenge →
        (Webauthn.VerifyAuthentication s now req).fst.Success = true) := by
  constructor
  · rfl
  · intro cd hch hcd hmatch
    unfold Webauthn.VerifyAuthentication
    rw [hch, hcd]
    simp [hmatch, Webauthn.getCredentialByID, Webauthn.updateCredentialSignCount]

/-- C3, witness at a concrete state and request. -/
theorem C3_signature_never_verified_witness :
    ((Webauthn.VerifyAuthentication cxAuthState 10 { cxAuthReq with Signature := "s1" }).fst.Success
      = (Webauthn.VerifyAuthentication cxAuthState 10 { cxAuthReq with Signature := "s2" }).fst.Success)
    ∧ (Webauthn.VerifyAuthentication cxAuthState 10 cxAuthReq).fst.Success = true := by
  have h := C3_signature_never_verified cxAuthState 10 cxAuthReq "s1" "s2"
  exact ⟨h.1, h.2 { ctype := "webauthn.get", challenge := "c1", origin := "https://example.test" }
    (by rfl) (by rfl) (by rfl)⟩

/-! ## C4: sign counter -/

/-- C4: the claim is right and the code is wrong.  The source never reads an
assertion sign counter, performs no strictly-greater comparison, and the
sign-count update is a TODO stub: authentication succeeds against a
credential with stored signCount 5 while the stored record is left
unchanged. -/
theorem C4_sign_count_not_enforced :
    (Webauthn.VerifyAuthentication cxSignState 10 cxAuthReq).fst.Success = true
    ∧ (Webauthn.VerifyAuthentication cxSignState 10 cxAuthReq).snd.credentials
        = cxSignState.credentials :=
  ⟨rfl, rfl⟩

/-! ## C5: the refresh eligibility window -/

/-- C5: the claim is right and the code is wrong.  At `now = 0` the token
has 86000 s of remaining life, far beyond the 3600 s refresh window, yet
RefreshSession succeeds: the source gate `remaining > refreshWindow ∧
remaining < ttl/2` lets every token in the first half of its life through,
contradicting its own comment (refresh only near expiry or past half
life) and the spec. -/
theorem C5_refresh_outside_window_succeeds :
    ((86000 : Int) - 0 > ChronosSession.refreshWindow)
    ∧ (ChronosSession.RefreshSession cxSessState 0 cxToken).isOk = true :=
  ⟨by decide, rfl⟩

/-! ## C6: revocation finality -/

/-- Filtering commutes with mapping a function that preserves the filtering
key. -/
theorem filter_map_of_pres {α : Type} (g : α → α) (p : α → Bool)
    (hp : ∀ a, p (g a) = p a) (l : List α) :
    (l.map g).filter p = (l.filter p).map g := by
  induction l with
  | nil => rfl
  | cons a l ih =>
    simp only [List.map_cons, List.filter_cons, hp a]
    cases h : p a
    · simpa using ih
    · simpa using ih

/-- Updating a session uid with a hash-preserving edit leaves the
by-hash query result in place, elementwise edited. -/
theorem sessionsByHash_updateByUid (s : ChronosSession.CSState) (u : Nat)
    (f : ChronosSession.SessionRec → ChronosSession.SessionRec)
    (hf : ∀ r, (f r).tokenHash = r.tokenHash) (t : ChronosSession.Token) :
    ChronosSession.sessionsByHash (ChronosSession.updateByUid s u f) t
      = (ChronosSession.sessionsByHash s t).map (fun r => if r.uid == u then f r else r) := by
  unfold ChronosSession.sessionsByHash ChronosSession.updateByUid
  refine filter_map_of_pres _ _ (fun r => ?_) s.sessions
  by_cases h : r.uid == u
  · simp [h, hf]
  · simp [h]

/-- After `invalidateToken` succeeds, `isTokenValid` is false for the token
at every time: the first session matching the hash is the one whose
`valid` flag was cleared. -/
theorem isTokenValid_after_invalidate (s s1 : ChronosSession.CSState)
    (t : ChronosSession.Token)
    (h : ChronosSession.invalidateToken s t = Except.ok s1) (now2 : Int) :
    ChronosSession.isTokenValid s1 now2 t = false := by
  unfold ChronosSession.invalidateToken at h
  cases hq : ChronosSession.sessionsByHash s t with
  | nil => rw [hq] at h; exact absurd h (by simp)
  | cons r tail =>
    rw [hq] at h
    have hs1 : s1 = ChronosSession.updateByUid s r.uid
        (fun q => { q with valid := false }) := by
      simpa using h.symm
    subst hs1
    unfold ChronosSession.isTokenValid
    rw [sessionsByHash_updateByUid s r.uid
      (fun q => { q with valid := false }) (fun q => rfl) t, hq]
    simp

/-- C6: revocation finality.  After RevokeSession succeeds on a token, every
later ValidateSession reports the token invalid, and every later
RefreshSession fails without issuing a new token. -/
theorem C6_revocation_finality (s s1 : ChronosSession.CSState) (now now2 : Int)
    (t : ChronosSession.Token) (reason : String)
    (resp : ChronosSession.RevocationResponse)
    (hrev : ChronosSession.RevokeSession s now t reason = Except.ok (resp, s1)) :
    (ChronosSession.ValidateSession s1 now2 t).fst.Valid = false
    ∧ (ChronosSession.RefreshSession s1 now2 t).isOk = false := by
  unfold ChronosSession.RevokeSession at hrev
  cases hinv : ChronosSession.invalidateToken s t with
  | error e => rw [hinv] at hrev; exact absurd hrev (by simp)
  | ok s1x =>
    rw [hinv] at hrev
    simp only [Except.ok.injEq, Prod.mk.injEq] at hrev
    obtain ⟨hresp, hs⟩ := hrev
    subst hs
    have htv := isTokenValid_after_invalidate s s1x t hinv now2
    have hval : (ChronosSession.ValidateSession s1x now2 t).fst.Valid = false := by
      unfold ChronosSession.ValidateSession
      cases hj : ChronosSession.jwtParse ChronosSession.secretKey now2 t with
      | error e => rfl
      | ok claims => simp [htv]
    refine ⟨hval, ?_⟩
    unfold ChronosSession.RefreshSession
    simp [hval, Except.isOk, Except.toBool]

/-- C6, witness: revoking the concrete session, validation and refresh of
the revoked token both fail. -/
theorem C6_revocation_finality_witness :
    (ChronosSession.ValidateSession cxRevokedState 1 cxToken).fst.Valid = false
    ∧ (ChronosSession.RefreshSession cxRevokedState 1 cxToken).isOk = false :=
  C6_revocation_finality cxSessState cxRevokedState 0 1 cxToken "test"
    { Revoked := true, Message := "Session revoked successfully", Timestamp := 0 }
    (by rfl)

/-! ## C7: OTP single use -/

/-- A record whose flags were just raised never passes the fresh-OTP
filter again. -/
theorem freshMatch_marked (ch oh : String) (q : CharonOTP.OTPRec) :
    CharonOTP.freshMatch ch oh { q with verified := true, used := true } = false := by
  simp [CharonOTP.freshMatch]

/-- Marking any uid cannot create a fresh match where none existed. -/
theorem filter_fresh_mark_nil (l : List CharonOTP.OTPRec) (ch oh : String) (u : Nat)
    (hnil : l.filter (CharonOTP.freshMatch ch oh) = []) :
    (l.map (fun q => if q.uid == u then { q with verified := true, used := true } else q)).filter
      (CharonOTP.freshMatch ch oh) = [] := by
  induction l with
  | nil => rfl
  | cons a l ih =>
    rw [List.filter_cons] at hnil
    cases ha : CharonOTP.freshMatch ch oh a
    · simp only [ha] at hnil
      simp only [Bool.false_eq_true, if_false] at hnil
      rw [List.map_cons, List.filter_cons]
      have hhead : CharonOTP.freshMatch ch oh
          (if (a.uid == u) = true then { a with verified := true, used := true } else a)
          = false := by
        by_cases hau : (a.uid == u) = true
        · rw [if_pos hau]; exact freshMatch_marked ch oh a
        · rw [if_neg hau]; exact ha
      rw [hhead]
      simp only [Bool.false_eq_true, if_false]
      exact ih hnil
    · simp [ha] at hnil

/-- When the fresh records matching the hashes are exactly `[r]`, marking
the uid of `r` empties the fresh-match query. -/
theorem filter_fresh_mark_single (l : List CharonOTP.OTPRec) (ch oh : String)
    (r : CharonOTP.OTPRec)
    (hone : l.filter (CharonOTP.freshMatch ch oh) = [r]) :
    (l.map (fun q => if q.uid == r.uid then { q with verified := true, used := true } else q)).filter
      (CharonOTP.freshMatch ch oh) = [] := by
  induction l with
  | nil => simp at hone
  | cons a l ih =>
    rw [List.filter_cons] at hone
    cases ha : CharonOTP.freshMatch ch oh a
    · simp only [ha] at hone
      simp only [Bool.false_eq_true, if_false] at hone
      rw [List.map_cons, List.filter_cons]
      have hhead : CharonOTP.freshMatch ch oh
          (if (a.uid == r.uid) = true then { a with verified := true, used := true } else a)
          = false := by
        by_cases hau : (a.uid == r.uid) = true
        · rw [if_pos hau]; exact freshMatch_marked ch oh a
        · rw [if_neg hau]; exact ha
      rw [hhead]
      simp only [Bool.false_eq_true, if_false]
      exact ih hone
    · simp only [ha, if_true] at hone
      rw [List.cons.injEq] at hone
      obtain ⟨rfl, hnil⟩ := hone
      rw [List.map_cons, List.filter_cons]
      have hhead : CharonOTP.freshMatch ch oh
          (if (a.uid == a.uid) = true then { a with verified := true, used := true } else a)
          = false := by
        rw [if_pos (by simp)]; exact freshMatch_marked ch oh a
      rw [hhead]
      simp only [Bool.false_eq_true, if_false]
      exact filter_fresh_mark_nil l ch oh a.uid hnil

/-- A successful VerifyOTP leaves the store with the head match of the
query marked verified and used. -/
theorem VerifyOTP_state_of_success (s : CharonOTP.OTPState) (now : Nat) (mk : Bool)
    (req : CharonOTP.VerifyOTPRequest) (r : CharonOTP.OTPRec)
    (tail : List CharonOTP.OTPRec)
    (hq : s.otps.filter
        (CharonOTP.freshMatch (hashString req.Recipient) (hashString req.OTPCode))
        = r :: tail)
    (hver : (CharonOTP.VerifyOTP s now mk req).fst.Verified = true) :
    (CharonOTP.VerifyOTP s now mk req).snd
      = CharonOTP.markOTPAsVerifiedAndUsed s r.uid := by
  unfold CharonOTP.VerifyOTP at hver ⊢
  simp only [hq] at hver ⊢
  by_cases hexp : now > r.expiresAt
  · simp only [if_pos hexp] at hver; simp at hver
  · simp only [if_neg hexp] at hver ⊢
    by_cases hmk : mk
    · simp only [if_neg (show ¬ ¬ mk = true by simp [hmk])] at hver ⊢
      cases hpost : CharonOTP.PostOTPVerification
          (CharonOTP.markOTPAsVerifiedAndUsed s r.uid) r.channelType req.Recipient with
      | error e => simp only [hpost]
      | ok v => obtain ⟨a, b, c⟩ := v; simp only [hpost]
    · simp only [if_pos (show ¬ mk = true by simp [hmk])] at hver; simp at hver

/-- C7: after a record is successfully verified (and it was the only fresh
record matching the recipient and code hashes), a second VerifyOTP with
the same recipient and code returns verified=false — the query only
matches records with verified=false and used=false. -/
theorem C7_otp_not_replayable (s : CharonOTP.OTPState) (now now2 : Nat)
    (mk1 mk2 : Bool) (req : CharonOTP.VerifyOTPRequest) (r : CharonOTP.OTPRec)
    (hone : s.otps.filter
        (CharonOTP.freshMatch (hashString req.Recipient) (hashString req.OTPCode)) = [r])
    (hver : (CharonOTP.VerifyOTP s now mk1 req).fst.Verified = true) :
    (CharonOTP.VerifyOTP (CharonOTP.VerifyOTP s now mk1 req).snd now2 mk2 req).fst.Verified
      = false := by
  have hstate := VerifyOTP_state_of_success s now mk1 req r [] hone hver
  rw [hstate]
  have hempty : (CharonOTP.markOTPAsVerifiedAndUsed s r.uid).otps.filter
      (CharonOTP.freshMatch (hashString req.Recipient) (hashString req.OTPCode)) = [] :=
    filter_fresh_mark_single s.otps _ _ r hone
  unfold CharonOTP.VerifyOTP
  simp only [hempty]

/-- C7, witness: the concrete replayed verification fails. -/
theorem C7_otp_not_replayable_witness :
    (CharonOTP.VerifyOTP (CharonOTP.VerifyOTP cxOtpState 10 true cxOtpReq).snd
      20 true cxOtpReq).fst.Verified = false :=
  C7_otp_not_replayable cxOtpState 10 20 true true cxOtpReq cxOtpRec (by rfl) (by rfl)

/-! ## C8: used implies verified -/

/-- Appending an unused record preserves the invariant. -/
theorem OTPInvL_append (l : List CharonOTP.OTPRec) (r : CharonOTP.OTPRec)
    (h : OTPInvL l) (hr : r.used = false) : OTPInvL (l ++ [r]) := by
  intro q hq hu
  rcases List.mem_append.mp hq with h1 | h2
  · exact h q h1 hu
  · simp only [List.mem_singleton] at h2
    subst h2
    rw [hr] at hu
    exact absurd hu (by simp)

/-- Raising both flags together preserves the invariant. -/
theorem OTPInvL_mark (l : List CharonOTP.OTPRec) (u : Nat) (h : OTPInvL l) :
    OTPInvL (l.map (fun q =>
      if q.uid == u then { q with verified := true, used := true } else q)) := by
  intro q hq hu
  rcases List.mem_map.mp hq with ⟨p, hp, rfl⟩
  by_cases hpu : p.uid == u
  · simp [hpu]
  · simp only [if_neg hpu] at hu ⊢
    exact h p hp hu

/-- C8: records are created with both flags false and the only mutation
sets verified and used together, so `used ⇒ verified` is preserved by both
SendOTP and VerifyOTP. -/
theorem C8_used_implies_verified (s : CharonOTP.OTPState) (now now2 : Nat)
    (env : CharonOTP.SendEnv) (sreq : CharonOTP.OTPRequest) (mk : Bool)
    (vreq : CharonOTP.VerifyOTPRequest) (hinv : OTPInv s) :
    OTPInv (CharonOTP.SendOTP s now env sreq).snd
    ∧ OTPInv (CharonOTP.VerifyOTP s now2 mk vreq).snd := by
  constructor
  · simp only [CharonOTP.SendOTP]
    repeat' split
    all_goals first
      | exact hinv
      | exact OTPInvL_append s.otps _ hinv rfl
  · simp only [CharonOTP.VerifyOTP]
    repeat' split
    all_goals first
      | exact hinv
      | exact OTPInvL_mark s.otps _ hinv

/-- C8, witness at the concrete store and requests. -/
theorem C8_used_implies_verified_witness :
    OTPInv (CharonOTP.SendOTP cxOtpState 0 cxSendEnvOk cxSendReq).snd
    ∧ OTPInv (CharonOTP.VerifyOTP cxOtpState 10 true cxOtpReq).snd :=
  C8_used_implies_verified cxOtpState 0 10 cxSendEnvOk cxSendReq true cxOtpReq
    (by intro r hr hu
        simp only [cxOtpState, List.mem_singleton] at hr
        subst hr
        simp [cxOtpRec] at hu)

/-! ## C9: SendOTP failure semantics -/

/-- C9, counterexample: with a failing store write, SendOTP still returns a
success response (no error), carrying a fallback otp id, instead of
returning an error to the caller. -/
theorem C9_counterexample :
    cxSendEnvStoreFail.storeResult = StoreOutcome.err "store unavailable"
    ∧ (CharonOTP.SendOTP cxOtpState 0 cxSendEnvStoreFail cxSendReq).fst
      = Except.ok { OTPID := "otp_0", Sent := true, Verified := false, Channel := "email",
                    ExpiresAt := 300, Message := "OTP sent successfully via email" } :=
  ⟨rfl, rfl⟩

/-- C9, amended: SendOTP returns an error when the CSPRNG draw fails, but a
store-write failure is swallowed: the call returns a non-error response
whose otp id is the fallback `otp_<now>`, and nothing is persisted. -/
theorem C9_send_failure_semantics (s : CharonOTP.OTPState) (now : Nat)
    (env : CharonOTP.SendEnv) (req : CharonOTP.OTPRequest)
    (hch : req.Channel = "email" ∨ req.Channel = "sms" ∨ req.Channel = "whatsapp"
           ∨ req.Channel = "telegram")
    (hr : ¬ req.Recipient = "") :
    (∀ e, env.genResult = Except.error e →
      (CharonOTP.SendOTP s now env req).fst
        = Except.error ("failed to generate OTP: " ++ e))
    ∧ (∀ code e, env.genResult = Except.ok code → env.storeResult = StoreOutcome.err e →
      (∃ resp, (CharonOTP.SendOTP s now env req).fst = Except.ok resp
        ∧ resp.OTPID = "otp_" ++ toString now)
      ∧ (CharonOTP.SendOTP s now env req).snd = s) := by
  have hc0 : ¬ req.Channel = "" := by rcases hch with h | h | h | h <;> simp [h]
  constructor
  · intro e hg
    simp only [CharonOTP.SendOTP, if_neg hc0, if_neg hr, hg]
  · intro code e hg hs
    simp only [CharonOTP.SendOTP, if_neg hc0, if_neg hr, hg, hs]
    rcases hch with h | h | h | h
    · cases hmail : env.emailResult with
      | error me => simp [CharonOTP.dispatchOTP, h, hmail]
      | ok u => simp [CharonOTP.dispatchOTP, h, hmail]
    · simp [CharonOTP.dispatchOTP, h]
    · simp [CharonOTP.dispatchOTP, h]
    · simp [CharonOTP.dispatchOTP, h]

/-- C9, witness for the amended theorem: error on a failed CSPRNG draw,
success with fallback id and unchanged store on a failed write. -/
theorem C9_send_failure_semantics_witness :
    ((CharonOTP.SendOTP cxOtpState 0
        { genResult := Except.error "rng", emailResult := Except.ok (),
          storeResult := StoreOutcome.okUid } cxSendReq).fst
      = Except.error ("failed to generate OTP: " ++ "rng"))
    ∧ ((∃ resp, (CharonOTP.SendOTP cxOtpState 0 cxSendEnvStoreFail cxSendReq).fst
          = Except.ok resp ∧ resp.OTPID = "otp_" ++ toString 0)
        ∧ (CharonOTP.SendOTP cxOtpState 0 cxSendEnvStoreFail cxSendReq).snd = cxOtpState) := by
  refine ⟨?_, ?_⟩
  · exact (C9_send_failure_semantics cxOtpState 0
      { genResult := Except.error "rng", emailResult := Except.ok (),
        storeResult := StoreOutcome.okUid } cxSendReq
      (Or.inl rfl) (by simp [cxSendReq])).1 "rng" rfl
  · exact (C9_send_failure_semantics cxOtpState 0 cxSendEnvStoreFail cxSendReq
      (Or.inl rfl) (by simp [cxSendReq])).2 "123456" "store unavailable" rfl rfl

/-! ## C10: pending user creation -/

/-- C10: on a lookup miss (no channel, or an unverified first hit), the
router mints `user_<unixSeconds>_<lastEightOfDID>`, persists a PENDING user
carrying the registered role when the catalog resolves it, persists a
verified primary UserChannel, and answers userExists=true,
action=register with that user id. -/
theorem C10_pending_user_creation (s : CerberusMFA.MFAState) (now : Nat)
    (env : CerberusMFA.MFAEnv) (req : CerberusMFA.CerberusMFARequest)
    (hmiss : ∀ c, (s.userChannels.filter
        (CerberusMFA.chMatch req.ChannelDID req.ChannelType)).head? = some c →
        c.verified = false)
    (hu : env.userMutation = StoreOutcome.okUid)
    (hc : env.channelMutation = Except.ok ())
    (hlen : 8 ≤ req.ChannelDID.length) :
    ((CerberusMFA.CerberusMFA s now env req).fst.UserExists = true
      ∧ (CerberusMFA.CerberusMFA s now env req).fst.Action = "register"
      ∧ (CerberusMFA.CerberusMFA s now env req).fst.UserID
          = "user_" ++ toString now ++ "_" ++ CerberusMFA.lastEight req.ChannelDID)
    ∧ (∃ u ∈ (CerberusMFA.CerberusMFA s now env req).snd.users,
        u.did = "user_" ++ toString now ++ "_" ++ CerberusMFA.lastEight req.ChannelDID
        ∧ u.status = "PENDING"
        ∧ ∀ ruid, CerberusMFA.registeredRoleUid s = some ruid → ruid ∈ u.roles)
    ∧ (∃ ch ∈ (CerberusMFA.CerberusMFA s now env req).snd.userChannels,
        ch.userId = "user_" ++ toString now ++ "_" ++ CerberusMFA.lastEight req.ChannelDID
        ∧ ch.channelHash = req.ChannelDID ∧ ch.channelType = req.ChannelType
        ∧ ch.verified = true ∧ ch.primary = true) := by
  have hlookup : CerberusMFA.checkUserByChannel s req.ChannelDID req.ChannelType
      = (false, "") := by
    unfold CerberusMFA.checkUserByChannel
    cases hf : s.userChannels.filter (CerberusMFA.chMatch req.ChannelDID req.ChannelType) with
    | nil => rfl
    | cons c tail =>
      have := hmiss c (by rw [hf]; rfl)
      simp [this]
  unfold CerberusMFA.CerberusMFA
  rw [hlookup]
  unfold CerberusMFA.CreateNewUser
  rw [hu, hc]
  refine ⟨⟨rfl, rfl, rfl⟩, ?_, ?_⟩
  · refine ⟨_, List.mem_append_right _ (List.mem_singleton.mpr rfl), rfl, rfl, ?_⟩
    intro ruid hruid
    simp [hruid, Option.toList]
  · exact ⟨_, List.mem_append_right _ (List.mem_singleton.mpr rfl), rfl, rfl, rfl, rfl, rfl⟩

/-- C10, witness at the concrete store: the minted id is
user_5_12345678, the PENDING user carries role uid 7, and the verified
primary channel is persisted. -/
theorem C10_pending_user_creation_witness :
    ((CerberusMFA.CerberusMFA cxMFAState 5 cxMFAEnv cxMFAReq).fst.UserExists = true
      ∧ (CerberusMFA.CerberusMFA cxMFAState 5 cxMFAEnv cxMFAReq).fst.Action = "register"
      ∧ (CerberusMFA.CerberusMFA cxMFAState 5 cxMFAEnv cxMFAReq).fst.UserID
          = "user_" ++ toString 5 ++ "_" ++ CerberusMFA.lastEight cxMFAReq.ChannelDID)
    ∧ (∃ u ∈ (CerberusMFA.CerberusMFA cxMFAState 5 cxMFAEnv cxMFAReq).snd.users,
        u.did = "user_" ++ toString 5 ++ "_" ++ CerberusMFA.lastEight cxMFAReq.ChannelDID
        ∧ u.status = "PENDING"
        ∧ ∀ ruid, CerberusMFA.registeredRoleUid cxMFAState = some ruid → ruid ∈ u.roles)
    ∧ (∃ ch ∈ (CerberusMFA.CerberusMFA cxMFAState 5 cxMFAEnv cxMFAReq).snd.userChannels,
        ch.userId = "user_" ++ toString 5 ++ "_" ++ CerberusMFA.lastEight cxMFAReq.ChannelDID
        ∧ ch.channelHash = cxMFAReq.ChannelDID ∧ ch.channelType = cxMFAReq.ChannelType
        ∧ ch.verified = true ∧ ch.primary = true) :=
  C10_pending_user_creation cxMFAState 5 cxMFAEnv cxMFAReq
    (by intro c hc; simp [cxMFAState, CerberusMFA.chMatch] at hc)
    rfl rfl (by decide)

end Modus
